import Mathlib

/-!
Shallow embedding of the portfolio backend (Express + Mongoose server).

The server keeps four record kinds (Settings, Project, Blog, Contact) in a
document store.  We model the store as lists of records, HTTP header and
environment values as `Option String` (with `none` standing for the JS value
`undefined`), and each request handler as a pure function from the request
data and the current store to the new store together with the produced
response.  `Date.now()` is passed in explicitly as a `Nat` parameter `now`
(milliseconds since epoch).
-/

namespace Portfolio

/-- JS strict equality on possibly-undefined string values: `undefined ===
undefined` is `true`, `undefined === s` is `false`, and two strings compare
by string equality.  This is exactly equality of `Option String`. -/
def jsEq (a b : Option String) : Bool := a = b

/-- Result of the auth middleware (`auth` in the server): either the request
is passed to the handler (`next()`), or a 401 response with a fixed message
is sent. -/
inductive AuthResult where
  | allowed
  | unauthorized (status : Nat) (message : String)
  deriving Repr, DecidableEq

/-- The `auth` middleware: reads the `password` request header and compares
it with `process.env.ADMIN_PASSWORD` using JS `===`; on mismatch it answers
401 with message "Unauthorized". -/
def auth (password adminPassword : Option String) : AuthResult :=
  if jsEq password adminPassword then .allowed
  else .unauthorized 401 "Unauthorized"

/-- Result of `POST /api/login`: success carries the fixed token string,
failure is a 401 with success flag false and a fixed message. -/
inductive LoginResult where
  | success (token : String)
  | invalid (status : Nat) (message : String)
  deriving Repr, DecidableEq

/-- The `POST /api/login` handler: reads `password` from the JSON body and
compares it with `process.env.ADMIN_PASSWORD` using JS `===`. -/
def login (password adminPassword : Option String) : LoginResult :=
  if jsEq password adminPassword then .success "admin-token"
  else .invalid 401 "Invalid password"

/-- JS option merge for a `$set`-style update: a field present in the update
body overwrites, an absent field keeps the old value. -/
def setField {α : Type} (new old : Option α) : Option α :=
  match new with
  | some v => some v
  | none => old

/-- A stored `Settings` document (SettingsSchema): `name` has schema default
"Vaibhav Kumar"; the other fields are plain optional strings. -/
structure Settings where
  name : String
  bio : Option String
  email : Option String
  phone : Option String
  address : Option String
  deriving Repr, DecidableEq

/-- A stored `Project` document (ProjectSchema): `id` and `title` required,
`category` defaults to "web", the rest optional. -/
structure Project where
  id : Nat
  title : String
  category : String
  img : Option String
  desc : Option String
  link : Option String
  deriving Repr, DecidableEq

/-- A stored `Blog` document (BlogSchema): `id`, `title`, `content` required,
`tags` defaults to the empty list, `date` defaults to the creation time. -/
structure Blog where
  id : Nat
  title : String
  content : String
  img : Option String
  tags : List String
  link : Option String
  date : Nat
  deriving Repr, DecidableEq

/-- Modelled from the spec: the Contact model file itself is not under src/
(the server only requires it).  Per the spec's data model, a Contact has a
timestamp-derived integer `id`, the submitted `name`, `email` and `message`
fields (not strictly schema-enforced), and an implicit `date` defaulting to
the creation time. -/
structure Contact where
  id : Nat
  name : Option String
  email : Option String
  message : Option String
  date : Nat
  deriving Repr, DecidableEq

/-- A JSON body sent to `PUT /api/settings`: any subset of the Settings
fields may be present. -/
structure SettingsBody where
  name : Option String
  bio : Option String
  email : Option String
  phone : Option String
  address : Option String
  deriving Repr, DecidableEq

/-- A JSON body sent to the project endpoints: any subset of the Project
fields may be present (including `id`, which the schema accepts). -/
structure ProjectBody where
  id : Option Nat
  title : Option String
  category : Option String
  img : Option String
  desc : Option String
  link : Option String
  deriving Repr, DecidableEq

/-- A JSON body sent to `POST /api/blogs`. -/
structure BlogBody where
  id : Option Nat
  title : Option String
  content : Option String
  img : Option String
  tags : Option (List String)
  link : Option String
  date : Option Nat
  deriving Repr, DecidableEq

/-- A JSON body sent to `POST /api/contact`. -/
structure ContactBody where
  id : Option Nat
  name : Option String
  email : Option String
  message : Option String
  date : Option Nat
  deriving Repr, DecidableEq

/-- The document store: one list per record kind, kept in insertion order. -/
structure Store where
  settingsDocs : List Settings
  projects : List Project
  blogs : List Blog
  contacts : List Contact
  deriving Repr, DecidableEq

/-- Embeds `Project.create ⦃ id: Date.now(), ...req.body ⦄`: the spread comes after
the `id` key, so a caller-supplied `id` overrides the timestamp.  Mongoose
validation rejects the document when required `title` is absent (the handler
then answers 500); `category` gets its schema default "web". -/
def createProject (now : Nat) (body : ProjectBody) : Option Project :=
  match body.title with
  | none => none
  | some t =>
      some { id := body.id.getD now
             title := t
             category := body.category.getD "web"
             img := body.img
             desc := body.desc
             link := body.link }

/-- Embeds `Blog.create ⦃ id: Date.now(), ...req.body ⦄`: required `title` and
`content`, `tags` defaults to `[]`, `date` defaults to the creation time. -/
def createBlog (now : Nat) (body : BlogBody) : Option Blog :=
  match body.title, body.content with
  | some t, some c =>
      some { id := body.id.getD now
             title := t
             content := c
             img := body.img
             tags := body.tags.getD []
             link := body.link
             date := body.date.getD now }
  | _, _ => none

/-- Embeds `Contact.create ⦃ id: Date.now(), ...req.body ⦄` with the spec-modelled
Contact schema: no required fields, `date` defaults to the creation time. -/
def createContact (now : Nat) (body : ContactBody) : Contact :=
  { id := body.id.getD now
    name := body.name
    email := body.email
    message := body.message
    date := body.date.getD now }

/-- Mongo `findOneAndUpdate` on a filter: rewrite the first matching
document in insertion order, leave the rest untouched. -/
def updateFirst {α : Type} (p : α → Bool) (f : α → α) : List α → List α
  | [] => []
  | x :: xs => if p x then f x :: xs else x :: updateFirst p f xs

/-- Mongo `findOneAndDelete` on a filter: remove the first matching document
in insertion order, leave the rest untouched. -/
def removeFirst {α : Type} (p : α → Bool) : List α → List α
  | [] => []
  | x :: xs => if p x then xs else x :: removeFirst p xs

/-- Inserts an element into a list already sorted by `key` descending,
after every element with a key at least as large. -/
def insertDesc {α : Type} (key : α → Nat) (x : α) : List α → List α
  | [] => [x]
  | y :: ys => if key y < key x then x :: y :: ys else y :: insertDesc key x ys

/-- Mongo `.sort(⦃ date: -1 ⦄)`: the stored documents ordered by the given
key descending (insertion sort, stable on ties). -/
def sortByDesc {α : Type} (key : α → Nat) : List α → List α
  | [] => []
  | x :: xs => insertDesc key x (sortByDesc key xs)

/-- Applies a `PUT /api/settings` body to an existing Settings document:
mongoose turns the plain body into a `$set`, so present fields overwrite and
absent fields are retained. -/
def applySettingsUpdate (body : SettingsBody) (s : Settings) : Settings :=
  { name := body.name.getD s.name
    bio := setField body.bio s.bio
    email := setField body.email s.email
    phone := setField body.phone s.phone
    address := setField body.address s.address }

/-- Builds the Settings document inserted by the upsert branch of
`findOneAndUpdate(\x7b\x7d, body, upsert)`: body fields plus schema defaults
(`name` defaults to "Vaibhav Kumar"). -/
def settingsFromBody (body : SettingsBody) : Settings :=
  { name := body.name.getD "Vaibhav Kumar"
    bio := body.bio
    email := body.email
    phone := body.phone
    address := body.address }

/-- Embeds `Settings.findOneAndUpdate(\x7b\x7d, req.body, new+upsert)`: the empty
filter matches the first stored document; if none exists a new document is
inserted from the body with schema defaults.  Returns the updated store list
and the resulting document (option `new: true`). -/
def upsertSettings (body : SettingsBody) : List Settings → List Settings × Settings
  | [] => ([settingsFromBody body], settingsFromBody body)
  | s :: rest => (applySettingsUpdate body s :: rest, applySettingsUpdate body s)

/-- Applies a `PUT /api/projects/:id` body to a stored project (`$set`
semantics, field by field). -/
def applyProjectUpdate (body : ProjectBody) (p : Project) : Project :=
  { id := body.id.getD p.id
    title := body.title.getD p.title
    category := body.category.getD p.category
    img := setField body.img p.img
    desc := setField body.desc p.desc
    link := setField body.link p.link }

/-- Embeds the `seedDatabase` startup routine: count Settings documents; if
zero, create one fixed default document.  A store fault is caught: the log
gains a seeding error line and the store is left unchanged.  Returns the
resulting Settings list and the log lines produced. -/
def seedDatabase (storeFault : Bool) (docs : List Settings) :
    List Settings × List String :=
  if storeFault then (docs, ["Seeding Error:"])
  else if docs.length = 0 then
    ([{ name := "Vaibhav Kumar"
        bio := some "Frontend Developer crafting high-performance, visually stunning web experiences."
        email := some "vaibhavsharma993@gmail.com"
        phone := none
        address := some "Ghaziabad, India" }],
     ["Database seeded with default settings"])
  else (docs, [])

/-- A request to one of the auth-protected endpoints, with its parsed path
parameter and JSON body. -/
inductive AdminRequest where
  | putSettings (body : SettingsBody)
  | postProjects (body : ProjectBody)
  | putProject (id : Nat) (body : ProjectBody)
  | deleteProject (id : Nat)
  | postBlogs (body : BlogBody)
  | deleteBlog (id : Nat)
  | getContact
  deriving Repr, DecidableEq

/-- The JSON response of a protected endpoint, one constructor per distinct
response shape the server produces. -/
inductive ApiResult where
  | unauthorized
  | settingsUpdated (settings : Settings)
  | projectAdded (project : Project)
  | projectUpdated
  | projectDeleted
  | blogPosted (blog : Blog)
  | blogDeleted
  | contactMessages (messages : List Contact)
  | serverError (message : String)
  deriving Repr, DecidableEq

/-- The handler bodies of the protected endpoints, exactly as the server
composes store operations and response shapes once `auth` has called
`next()`. -/
def handleAdmin (now : Nat) (req : AdminRequest) (store : Store) :
    Store × ApiResult :=
  match req with
  | .putSettings body =>
      let r := upsertSettings body store.settingsDocs
      ({ store with settingsDocs := r.1 }, .settingsUpdated r.2)
  | .postProjects body =>
      match createProject now body with
      | none => (store, .serverError "Error adding project")
      | some p => ({ store with projects := store.projects ++ [p] }, .projectAdded p)
  | .putProject i body =>
      ({ store with projects := updateFirst (fun p => p.id = i) (applyProjectUpdate body) store.projects },
       .projectUpdated)
  | .deleteProject i =>
      ({ store with projects := removeFirst (fun p => p.id = i) store.projects },
       .projectDeleted)
  | .postBlogs body =>
      match createBlog now body with
      | none => (store, .serverError "Error adding blog")
      | some b => ({ store with blogs := store.blogs ++ [b] }, .blogPosted b)
  | .deleteBlog i =>
      ({ store with blogs := removeFirst (fun b => b.id = i) store.blogs },
       .blogDeleted)
  | .getContact =>
      (store, .contactMessages (sortByDesc Contact.date store.contacts))

/-- A protected route as the server wires it: the `auth` middleware runs
first on the `password` header; only on `next()` does the handler body run. -/
def protectedRoute (password adminPassword : Option String) (now : Nat)
    (req : AdminRequest) (store : Store) : Store × ApiResult :=
  match auth password adminPassword with
  | .allowed => handleAdmin now req store
  | .unauthorized _ _ => (store, .unauthorized)

/-- The `GET /api/blogs` handler (public): all blogs sorted by date
descending. -/
def getBlogs (store : Store) : List Blog :=
  sortByDesc Blog.date store.blogs

/-- The `GET /api/contact` handler body (admin): all contact messages sorted
by date descending. -/
def getContactMessages (store : Store) : List Contact :=
  sortByDesc Contact.date store.contacts

/-- JS falsiness of `process.env.DISCORD_WEBHOOK_URL`: the guard
`if (!webhookUrl) return` fires when the variable is unset or the empty
string. -/
def isFalsyUrl : Option String → Bool
  | none => true
  | some s => s = ""

/-- The embed payload the dispatcher POSTs to the webhook: fixed title,
color constant 0x00f3ff, the three named fields taken from the contact
record, and a fixed footer. -/
structure Embed where
  title : String
  color : Nat
  embedFields : List (String × Option String)
  footer : String
  deriving Repr, DecidableEq

/-- What an attempted webhook delivery did, as seen from the server. -/
inductive DeliveryOutcome where
  | delivered
  | networkError (err : String)
  | httpStatus (code : Nat)
  deriving Repr, DecidableEq

/-- Embeds `sendDiscordNotification`: if the webhook URL is falsy, return
with no outbound call and no log; otherwise POST the embed to the URL, and
on any delivery failure log the fixed error line and swallow the failure.
Returns the outbound calls made and the log lines produced. -/
def sendDiscordNotification (webhookUrl : Option String) (data : Contact)
    (outcome : DeliveryOutcome) : List (String × Embed) × List String :=
  if isFalsyUrl webhookUrl then ([], [])
  else
    let url := webhookUrl.getD ""
    let payload : Embed :=
      { title := "🚀 New Signal Received"
        color := 0x00f3ff
        embedFields := [("Name", data.name), ("Email", data.email), ("Message", data.message)]
        footer := "Portfolio System Notification" }
    ([(url, payload)],
     match outcome with
     | .delivered => []
     | .networkError _ => ["Discord Webhook Error:"]
     | .httpStatus _ => ["Discord Webhook Error:"])

/-- The JSON response of `POST /api/contact`. -/
inductive ContactPostResult where
  | sent (contact : Contact)
  | contactError (message : String)
  deriving Repr, DecidableEq

/-- Embeds the `POST /api/contact` handler: create the contact, fire the
notification without awaiting it, and answer success with the created
record.  The delivery outcome is an input because it is decided by the
network, not by the server; the response is produced in all cases before the
dispatch settles. -/
def postContact (webhookUrl : Option String) (now : Nat) (body : ContactBody)
    (store : Store) (outcome : DeliveryOutcome) :
    Store × ContactPostResult × List (String × Embed) × List String :=
  let c := createContact now body
  let dispatch := sendDiscordNotification webhookUrl c outcome
  ({ store with contacts := store.contacts ++ [c] }, .sent c, dispatch.1, dispatch.2)

/-! Theorems. -/

/-- Handler bodies never produce the middleware's 401 shape, so reaching the
handler is observably distinct from being rejected by the gate. -/
theorem handleAdmin_ne_unauthorized (now : Nat) (req : AdminRequest) (store : Store) :
    (handleAdmin now req store).2 ≠ ApiResult.unauthorized := by
  cases req <;> simp only [handleAdmin] <;> (try split) <;> simp

/-- C1: for every protected endpoint and every request, the request reaches
its handler iff the password header JS-strict-equals the configured admin
secret; on mismatch the response is the fixed 401 Unauthorized and the store
is unchanged. -/
theorem auth_gate_iff (password adminPassword : Option String) (now : Nat)
    (req : AdminRequest) (store : Store) :
    (protectedRoute password adminPassword now req store = handleAdmin now req store
      ↔ password = adminPassword)
    ∧ (password ≠ adminPassword →
        protectedRoute password adminPassword now req store
          = (store, ApiResult.unauthorized)) := by
  by_cases h : password = adminPassword
  · refine ⟨?_, fun hne => absurd h hne⟩
    simp [protectedRoute, auth, jsEq, h]
  · have hroute : protectedRoute password adminPassword now req store
        = (store, ApiResult.unauthorized) := by
      simp [protectedRoute, auth, jsEq, h]
    refine ⟨⟨fun heq => ?_, fun h' => absurd h' h⟩, fun _ => hroute⟩
    have h2 : (handleAdmin now req store).2 = ApiResult.unauthorized := by
      rw [← heq, hroute]
    exact absurd h2 (handleAdmin_ne_unauthorized now req store)

/-- Witness for C1: a wrong password against a configured secret yields the
fixed 401 and leaves the concrete store unchanged. -/
theorem auth_gate_iff_witness :
    protectedRoute (some "guess") (some "secret") 0 AdminRequest.getContact
        (⟨[], [], [], []⟩ : Store)
      = ((⟨[], [], [], []⟩ : Store), ApiResult.unauthorized) :=
  (auth_gate_iff (some "guess") (some "secret") 0 AdminRequest.getContact
      (⟨[], [], [], []⟩ : Store)).2 (by decide)

/-- C2: with the admin secret unset and no password header, both values are
undefined and JS strict equality holds, so the gate allows every protected
request through to its handler and the login endpoint succeeds. -/
theorem unset_secret_allows_all :
    auth none none = AuthResult.allowed
    ∧ login none none = LoginResult.success "admin-token"
    ∧ ∀ (now : Nat) (req : AdminRequest) (store : Store),
        protectedRoute none none now req store = handleAdmin now req store := by
  refine ⟨rfl, rfl, fun now req store => ?_⟩
  simp [protectedRoute, auth, jsEq]

/-- Helper: a Project create whose body has no id stores the timestamp as id. -/
theorem createProject_id_of_none (now : Nat) (body : ProjectBody) (p : Project)
    (hid : body.id = none) (hc : createProject now body = some p) : p.id = now := by
  cases ht : body.title with
  | none => simp [createProject, ht] at hc
  | some t =>
      simp only [createProject, ht] at hc
      cases hc
      simp [hid]

/-- Helper: a Blog create whose body has no id stores the timestamp as id. -/
theorem createBlog_id_of_none (now : Nat) (body : BlogBody) (b : Blog)
    (hid : body.id = none) (hc : createBlog now body = some b) : b.id = now := by
  cases ht : body.title with
  | none => simp [createBlog, ht] at hc
  | some t =>
      cases hco : body.content with
      | none => simp [createBlog, ht, hco] at hc
      | some c =>
          simp only [createBlog, ht, hco] at hc
          cases hc
          simp [hid]

/-- Counterexample for C3: the object spread in the create handlers places
`...req.body` after the `id` key, so a caller-supplied `id` overrides the
timestamp; here a create at time 1000 with body id 42 stores id 42. -/
theorem create_id_counterexample :
    (createProject 1000 ⟨some 42, some "t", none, none, none, none⟩).map Project.id
      = some 42 ∧ (42 : Nat) ≠ 1000 := by decide

/-- C3 (amended): for a create of a Project, Blog, or Contact whose body
does not supply an `id` field, the stored record's id equals the creation
timestamp, caller-supplied fields are merged in, and per-field defaults are
applied for absent optional fields; the returned record carries the id and
the defaults. -/
theorem create_assigns_now_id (now : Nat) :
    (∀ (body : ProjectBody) (p : Project), body.id = none →
        createProject now body = some p →
        p.id = now ∧ (∀ t, body.title = some t → p.title = t)
          ∧ p.category = body.category.getD "web"
          ∧ p.img = body.img ∧ p.desc = body.desc ∧ p.link = body.link)
    ∧ (∀ (body : BlogBody) (b : Blog), body.id = none →
        createBlog now body = some b →
        b.id = now ∧ (∀ t, body.title = some t → b.title = t)
          ∧ (∀ c, body.content = some c → b.content = c)
          ∧ b.tags = body.tags.getD [] ∧ b.date = body.date.getD now
          ∧ b.img = body.img ∧ b.link = body.link)
    ∧ (∀ body : ContactBody, body.id = none →
        (createContact now body).id = now
          ∧ (createContact now body).name = body.name
          ∧ (createContact now body).email = body.email
          ∧ (createContact now body).message = body.message
          ∧ (createContact now body).date = body.date.getD now) := by
  refine ⟨fun body p hid hc => ?_, fun body b hid hc => ?_, fun body hid => ?_⟩
  · refine ⟨createProject_id_of_none now body p hid hc, ?_⟩
    cases ht : body.title with
    | none => simp [createProject, ht] at hc
    | some t =>
        simp only [createProject, ht] at hc
        cases hc
        simp [ht]
  · refine ⟨createBlog_id_of_none now body b hid hc, ?_⟩
    cases ht : body.title with
    | none => simp [createBlog, ht] at hc
    | some t =>
        cases hco : body.content with
        | none => simp [createBlog, ht, hco] at hc
        | some c =>
            simp only [createBlog, ht, hco] at hc
            cases hc
            simp [ht, hco]
  · simp [createContact, hid]

/-- Witness for C3: a concrete contact create at time 7 with no body id. -/
theorem create_assigns_now_id_witness :
    (createContact 7 ⟨none, some "n", some "e", some "m", none⟩).id = 7
      ∧ (createContact 7 ⟨none, some "n", some "e", some "m", none⟩).name
          = (⟨none, some "n", some "e", some "m", none⟩ : ContactBody).name
      ∧ (createContact 7 ⟨none, some "n", some "e", some "m", none⟩).email
          = (⟨none, some "n", some "e", some "m", none⟩ : ContactBody).email
      ∧ (createContact 7 ⟨none, some "n", some "e", some "m", none⟩).message
          = (⟨none, some "n", some "e", some "m", none⟩ : ContactBody).message
      ∧ (createContact 7 ⟨none, some "n", some "e", some "m", none⟩).date
          = (⟨none, some "n", some "e", some "m", none⟩ : ContactBody).date.getD 7 :=
  (create_assigns_now_id 7).2.2 ⟨none, some "n", some "e", some "m", none⟩ rfl

/-- Counterexample for C4: two consecutive creates landing in the same
`Date.now()` millisecond store the same id (here both get id 5). -/
theorem rapid_create_counterexample :
    (createProject 5 ⟨none, some "a", none, none, none, none⟩).map Project.id = some 5
    ∧ (createProject 5 ⟨none, some "b", none, none, none, none⟩).map Project.id
        = some 5 := by decide

/-- C4 (amended): two consecutive successful Project or Blog creates whose
bodies carry no `id` field and whose `Date.now()` timestamps differ store
two distinct ids. -/
theorem rapid_create_distinct_ids (n1 n2 : Nat) (hne : n1 ≠ n2) :
    (∀ (b1 b2 : ProjectBody) (p1 p2 : Project), b1.id = none → b2.id = none →
        createProject n1 b1 = some p1 → createProject n2 b2 = some p2 →
        p1.id ≠ p2.id)
    ∧ (∀ (b1 b2 : BlogBody) (w1 w2 : Blog), b1.id = none → b2.id = none →
        createBlog n1 b1 = some w1 → createBlog n2 b2 = some w2 →
        w1.id ≠ w2.id) := by
  constructor
  · intro b1 b2 p1 p2 h1 h2 hc1 hc2
    rw [createProject_id_of_none n1 b1 p1 h1 hc1,
      createProject_id_of_none n2 b2 p2 h2 hc2]
    exact hne
  · intro b1 b2 w1 w2 h1 h2 hc1 hc2
    rw [createBlog_id_of_none n1 b1 w1 h1 hc1, createBlog_id_of_none n2 b2 w2 h2 hc2]
    exact hne

/-- Witness for C4: creates at times 1 and 2 yield the distinct ids 1 and 2. -/
theorem rapid_create_distinct_ids_witness :
    (⟨1, "a", "web", none, none, none⟩ : Project).id
      ≠ (⟨2, "a", "web", none, none, none⟩ : Project).id :=
  (rapid_create_distinct_ids 1 2 (by decide)).1
    ⟨none, some "a", none, none, none, none⟩ ⟨none, some "a", none, none, none, none⟩
    ⟨1, "a", "web", none, none, none⟩ ⟨2, "a", "web", none, none, none⟩
    rfl rfl rfl rfl

/-- Helper: rewriting the first match is the identity when nothing matches. -/
theorem updateFirst_no_match {α : Type} (p : α → Bool) (f : α → α) (l : List α)
    (h : ∀ x ∈ l, p x = false) : updateFirst p f l = l := by
  induction l with
  | nil => rfl
  | cons x xs ih =>
      simp only [updateFirst, h x (List.mem_cons_self x xs), Bool.false_eq_true,
        if_false, List.cons.injEq, true_and]
      exact ih fun y hy => h y (List.mem_cons_of_mem x hy)

/-- Helper: removing the first match is the identity when nothing matches. -/
theorem removeFirst_no_match {α : Type} (p : α → Bool) (l : List α)
    (h : ∀ x ∈ l, p x = false) : removeFirst p l = l := by
  induction l with
  | nil => rfl
  | cons x xs ih =>
      simp only [removeFirst, h x (List.mem_cons_self x xs), Bool.false_eq_true,
        if_false, List.cons.injEq, true_and]
      exact ih fun y hy => h y (List.mem_cons_of_mem x hy)

/-- C5: updating or deleting a Project, or deleting a Blog, whose id matches
no stored record is a no-op treated as success: the store is unchanged and
the response is the same fixed success shape produced when a match exists,
never an error. -/
theorem missing_target_noop (now i : Nat) (body : ProjectBody) (store : Store)
    (hp : ∀ p ∈ store.projects, p.id ≠ i) (hb : ∀ b ∈ store.blogs, b.id ≠ i) :
    handleAdmin now (.putProject i body) store = (store, ApiResult.projectUpdated)
    ∧ handleAdmin now (.deleteProject i) store = (store, ApiResult.projectDeleted)
    ∧ handleAdmin now (.deleteBlog i) store = (store, ApiResult.blogDeleted)
    ∧ (∀ st : Store,
        (handleAdmin now (.putProject i body) st).2 = ApiResult.projectUpdated
        ∧ (handleAdmin now (.deleteProject i) st).2 = ApiResult.projectDeleted
        ∧ (handleAdmin now (.deleteBlog i) st).2 = ApiResult.blogDeleted) := by
  have hpe : ∀ p ∈ store.projects, (decide (p.id = i)) = false := fun p hm =>
    decide_eq_false (hp p hm)
  have hbe : ∀ b ∈ store.blogs, (decide (b.id = i)) = false := fun b hm =>
    decide_eq_false (hb b hm)
  refine ⟨?_, ?_, ?_, fun st => ⟨rfl, rfl, rfl⟩⟩
  · simp [handleAdmin, updateFirst_no_match _ _ _ hpe]
  · simp [handleAdmin, removeFirst_no_match _ _ hpe]
  · simp [handleAdmin, removeFirst_no_match _ _ hbe]

/-- Witness for C5: deleting and updating id 99 in a store holding only a
project and a blog with id 1 leaves the store as it was and answers the
fixed success shapes. -/
theorem missing_target_noop_witness :
    handleAdmin 0 (.putProject 99 ⟨none, none, none, none, none, none⟩)
        (⟨[], [⟨1, "t", "web", none, none, none⟩], [⟨1, "t", "c", none, [], none, 0⟩], []⟩ : Store)
      = ((⟨[], [⟨1, "t", "web", none, none, none⟩], [⟨1, "t", "c", none, [], none, 0⟩], []⟩ : Store),
         ApiResult.projectUpdated)
    ∧ handleAdmin 0 (.deleteProject 99)
        (⟨[], [⟨1, "t", "web", none, none, none⟩], [⟨1, "t", "c", none, [], none, 0⟩], []⟩ : Store)
      = ((⟨[], [⟨1, "t", "web", none, none, none⟩], [⟨1, "t", "c", none, [], none, 0⟩], []⟩ : Store),
         ApiResult.projectDeleted)
    ∧ handleAdmin 0 (.deleteBlog 99)
        (⟨[], [⟨1, "t", "web", none, none, none⟩], [⟨1, "t", "c", none, [], none, 0⟩], []⟩ : Store)
      = ((⟨[], [⟨1, "t", "web", none, none, none⟩], [⟨1, "t", "c", none, [], none, 0⟩], []⟩ : Store),
         ApiResult.blogDeleted)
    ∧ (∀ st : Store,
        (handleAdmin 0 (.putProject 99 ⟨none, none, none, none, none, none⟩) st).2
          = ApiResult.projectUpdated
        ∧ (handleAdmin 0 (.deleteProject 99) st).2 = ApiResult.projectDeleted
        ∧ (handleAdmin 0 (.deleteBlog 99) st).2 = ApiResult.blogDeleted) :=
  missing_target_noop 0 99 ⟨none, none, none, none, none, none⟩
    (⟨[], [⟨1, "t", "web", none, none, none⟩], [⟨1, "t", "c", none, [], none, 0⟩], []⟩ : Store)
    (by decide) (by decide)

/-- Helper: sorting any arrangement of three records with strictly
increasing keys yields them in strictly descending key order. -/
theorem sortByDesc_three {α : Type} (key : α → Nat) (a b c : α)
    (h1 : key a < key b) (h2 : key b < key c) (l : List α)
    (hl : l = [a, b, c] ∨ l = [a, c, b] ∨ l = [b, a, c] ∨ l = [b, c, a]
      ∨ l = [c, a, b] ∨ l = [c, b, a]) :
    sortByDesc key l = [c, b, a] := by
  have h3 : key a < key c := Nat.lt_trans h1 h2
  rcases hl with rfl | rfl | rfl | rfl | rfl | rfl <;>
    simp [sortByDesc, insertDesc, h1, h2, h3,
      Nat.lt_asymm h1, Nat.lt_asymm h2, Nat.lt_asymm h3]

/-- C6: GET /api/blogs and GET /api/contact return the stored records of
their kind ordered by date descending: three records with dates D1 < D2 < D3,
stored in any insertion order, are listed D3, D2, D1. -/
theorem list_by_date_desc (b1 b2 b3 : Blog) (c1 c2 c3 : Contact)
    (stb stc : Store)
    (hb1 : b1.date < b2.date) (hb2 : b2.date < b3.date)
    (hbl : stb.blogs = [b1, b2, b3] ∨ stb.blogs = [b1, b3, b2]
      ∨ stb.blogs = [b2, b1, b3] ∨ stb.blogs = [b2, b3, b1]
      ∨ stb.blogs = [b3, b1, b2] ∨ stb.blogs = [b3, b2, b1])
    (hc1 : c1.date < c2.date) (hc2 : c2.date < c3.date)
    (hcl : stc.contacts = [c1, c2, c3] ∨ stc.contacts = [c1, c3, c2]
      ∨ stc.contacts = [c2, c1, c3] ∨ stc.contacts = [c2, c3, c1]
      ∨ stc.contacts = [c3, c1, c2] ∨ stc.contacts = [c3, c2, c1]) :
    getBlogs stb = [b3, b2, b1] ∧ getContactMessages stc = [c3, c2, c1] := by
  constructor
  · unfold getBlogs
    exact sortByDesc_three Blog.date b1 b2 b3 hb1 hb2 stb.blogs hbl
  · unfold getContactMessages
    exact sortByDesc_three Contact.date c1 c2 c3 hc1 hc2 stc.contacts hcl

/-- Witness for C6: three blogs with dates 1 < 2 < 3 inserted as 2,3,1 and
three contacts inserted as 3,1,2 both come back date-descending. -/
theorem list_by_date_desc_witness :
    getBlogs (⟨[], [], [⟨2, "b", "c", none, [], none, 2⟩, ⟨3, "c", "c", none, [], none, 3⟩,
        ⟨1, "a", "c", none, [], none, 1⟩], []⟩ : Store)
      = [⟨3, "c", "c", none, [], none, 3⟩, ⟨2, "b", "c", none, [], none, 2⟩,
         ⟨1, "a", "c", none, [], none, 1⟩]
    ∧ getContactMessages (⟨[], [], [], [⟨3, none, none, none, 3⟩, ⟨1, none, none, none, 1⟩,
        ⟨2, none, none, none, 2⟩]⟩ : Store)
      = [⟨3, none, none, none, 3⟩, ⟨2, none, none, none, 2⟩, ⟨1, none, none, none, 1⟩] :=
  list_by_date_desc ⟨1, "a", "c", none, [], none, 1⟩ ⟨2, "b", "c", none, [], none, 2⟩
    ⟨3, "c", "c", none, [], none, 3⟩
    ⟨1, none, none, none, 1⟩ ⟨2, none, none, none, 2⟩ ⟨3, none, none, none, 3⟩
    (⟨[], [], [⟨2, "b", "c", none, [], none, 2⟩, ⟨3, "c", "c", none, [], none, 3⟩,
        ⟨1, "a", "c", none, [], none, 1⟩], []⟩ : Store)
    (⟨[], [], [], [⟨3, none, none, none, 3⟩, ⟨1, none, none, none, 1⟩,
        ⟨2, none, none, none, 2⟩]⟩ : Store)
    (by decide) (by decide) (by simp) (by decide) (by decide) (by simp)

/-- C7: PUT /api/settings with a partial body merges into the existing
first Settings document: every field absent from the body keeps its prior
stored value and every present field is overwritten; with no existing
document one is created from the body (upsert, schema default name); the
response carries the resulting record. -/
theorem settings_upsert_merge (now : Nat) (body : SettingsBody) :
    (∀ (old : Settings) (rest : List Settings) (store : Store),
        store.settingsDocs = old :: rest →
        handleAdmin now (.putSettings body) store
          = ({ store with settingsDocs := applySettingsUpdate body old :: rest },
             ApiResult.settingsUpdated (applySettingsUpdate body old))
        ∧ (body.name = none → (applySettingsUpdate body old).name = old.name)
        ∧ (body.bio = none → (applySettingsUpdate body old).bio = old.bio)
        ∧ (body.email = none → (applySettingsUpdate body old).email = old.email)
        ∧ (body.phone = none → (applySettingsUpdate body old).phone = old.phone)
        ∧ (body.address = none → (applySettingsUpdate body old).address = old.address)
        ∧ (∀ v, body.name = some v → (applySettingsUpdate body old).name = v)
        ∧ (∀ v, body.bio = some v → (applySettingsUpdate body old).bio = some v))
    ∧ (∀ store : Store, store.settingsDocs = [] →
        handleAdmin now (.putSettings body) store
          = ({ store with settingsDocs := [settingsFromBody body] },
             ApiResult.settingsUpdated (settingsFromBody body))) := by
  constructor
  · intro old rest store hs
    refine ⟨?_, ?_, ?_, ?_, ?_, ?_, ?_, ?_⟩
    · simp [handleAdmin, upsertSettings, hs]
    · intro h; simp [applySettingsUpdate, h]
    · intro h; simp [applySettingsUpdate, setField, h]
    · intro h; simp [applySettingsUpdate, setField, h]
    · intro h; simp [applySettingsUpdate, setField, h]
    · intro h; simp [applySettingsUpdate, setField, h]
    · intro v h; simp [applySettingsUpdate, h]
    · intro v h; simp [applySettingsUpdate, setField, h]
  · intro store hs
    simp [handleAdmin, upsertSettings, hs]

/-- Witness for C7: a body naming only bio, applied to a store holding one
full Settings document, changes bio and keeps the other fields. -/
theorem settings_upsert_merge_witness :
    handleAdmin 0 (.putSettings ⟨none, some "new bio", none, none, none⟩)
        (⟨[⟨"N", some "old bio", some "e", some "p", some "a"⟩], [], [], []⟩ : Store)
      = ((⟨[applySettingsUpdate ⟨none, some "new bio", none, none, none⟩
              ⟨"N", some "old bio", some "e", some "p", some "a"⟩], [], [], []⟩ : Store),
         ApiResult.settingsUpdated (applySettingsUpdate
           ⟨none, some "new bio", none, none, none⟩
           ⟨"N", some "old bio", some "e", some "p", some "a"⟩))
    ∧ (applySettingsUpdate ⟨none, some "new bio", none, none, none⟩
        ⟨"N", some "old bio", some "e", some "p", some "a"⟩).name = "N"
    ∧ (applySettingsUpdate ⟨none, some "new bio", none, none, none⟩
        ⟨"N", some "old bio", some "e", some "p", some "a"⟩).email = some "e" := by
  have h := (settings_upsert_merge 0 ⟨none, some "new bio", none, none, none⟩).1
    ⟨"N", some "old bio", some "e", some "p", some "a"⟩ []
    (⟨[⟨"N", some "old bio", some "e", some "p", some "a"⟩], [], [], []⟩ : Store) rfl
  exact ⟨h.1, h.2.1 rfl, h.2.2.2.1 rfl⟩

/-- C8: a contact submission with no webhook destination configured makes no
outbound call, logs nothing, and still stores the contact and answers the
success shape carrying the created record. -/
theorem contact_no_webhook (webhookUrl : Option String) (now : Nat)
    (body : ContactBody) (store : Store) (outcome : DeliveryOutcome)
    (h : isFalsyUrl webhookUrl = true) :
    postContact webhookUrl now body store outcome
      = ({ store with contacts := store.contacts ++ [createContact now body] },
         ContactPostResult.sent (createContact now body), [], []) := by
  simp [postContact, sendDiscordNotification, h]

/-- Witness for C8: an unset webhook URL on an empty store. -/
theorem contact_no_webhook_witness :
    postContact none 3 ⟨none, some "n", some "e", some "m", none⟩
        (⟨[], [], [], []⟩ : Store) DeliveryOutcome.delivered
      = ((⟨[], [], [], [createContact 3 ⟨none, some "n", some "e", some "m", none⟩]⟩ : Store),
         ContactPostResult.sent (createContact 3 ⟨none, some "n", some "e", some "m", none⟩),
         [], []) := by
  have h := contact_no_webhook none 3 ⟨none, some "n", some "e", some "m", none⟩
    (⟨[], [], [], []⟩ : Store) DeliveryOutcome.delivered rfl
  simpa using h

/-- C9: the caller-visible outcome of a contact submission (new store,
response, outbound call list) is identical for every delivery outcome; the
response is always the success shape with the created record; a failed
delivery on a configured webhook only adds the fixed error log line. -/
theorem contact_dispatch_isolated (webhookUrl : Option String) (now : Nat)
    (body : ContactBody) (store : Store) :
    (∀ o1 o2 : DeliveryOutcome,
        (postContact webhookUrl now body store o1).1
          = (postContact webhookUrl now body store o2).1
        ∧ (postContact webhookUrl now body store o1).2.1
          = (postContact webhookUrl now body store o2).2.1
        ∧ (postContact webhookUrl now body store o1).2.2.1
          = (postContact webhookUrl now body store o2).2.2.1)
    ∧ (∀ o : DeliveryOutcome, (postContact webhookUrl now body store o).2.1
        = ContactPostResult.sent (createContact now body))
    ∧ (isFalsyUrl webhookUrl = false →
        (∀ err, (postContact webhookUrl now body store (.networkError err)).2.2.2
          = ["Discord Webhook Error:"])
        ∧ (∀ code, (postContact webhookUrl now body store (.httpStatus code)).2.2.2
          = ["Discord Webhook Error:"])) := by
  refine ⟨fun o1 o2 => ?_, fun o => ?_, fun h => ?_⟩
  · cases hf : isFalsyUrl webhookUrl <;>
      simp [postContact, sendDiscordNotification, hf]
  · simp [postContact]
  · constructor
    · intro err; simp [postContact, sendDiscordNotification, h]
    · intro code; simp [postContact, sendDiscordNotification, h]

/-- Witness for C9: with a configured webhook, a network failure leaves the
store, response and outbound call identical to a delivered dispatch, and
logs the fixed line. -/
theorem contact_dispatch_isolated_witness :
    ((postContact (some "https://hook") 3 ⟨none, some "n", some "e", some "m", none⟩
        (⟨[], [], [], []⟩ : Store) (.networkError "refused")).1
      = (postContact (some "https://hook") 3 ⟨none, some "n", some "e", some "m", none⟩
        (⟨[], [], [], []⟩ : Store) .delivered).1)
    ∧ (postContact (some "https://hook") 3 ⟨none, some "n", some "e", some "m", none⟩
        (⟨[], [], [], []⟩ : Store) (.networkError "refused")).2.2.2
      = ["Discord Webhook Error:"] := by
  have h := contact_dispatch_isolated (some "https://hook") 3
    ⟨none, some "n", some "e", some "m", none⟩ (⟨[], [], [], []⟩ : Store)
  exact ⟨(h.1 (.networkError "refused") .delivered).1, (h.2.2 rfl).1 "refused"⟩

/-- C10: seeding an empty store creates exactly one Settings record named
"Vaibhav Kumar"; seeding a non-empty store creates zero additional records;
a seeding fault leaves the store unchanged and is logged only. -/
theorem seed_database_spec :
    ((seedDatabase false []).1.length = 1
      ∧ ∀ s ∈ (seedDatabase false []).1, s.name = "Vaibhav Kumar")
    ∧ (∀ docs : List Settings, docs ≠ [] → seedDatabase false docs = (docs, []))
    ∧ (∀ docs : List Settings, seedDatabase true docs = (docs, ["Seeding Error:"])) := by
  refine ⟨⟨rfl, ?_⟩, fun docs h => ?_, fun docs => rfl⟩
  · intro s hs
    simp only [seedDatabase] at hs
    norm_num at hs
    subst hs
    rfl
  · have : docs.length ≠ 0 := fun hl => h (List.eq_nil_of_length_eq_zero hl)
    simp [seedDatabase, this]

/-- Witness for C10: seeding again after the first seed adds nothing. -/
theorem seed_database_spec_witness :
    seedDatabase false [⟨"Vaibhav Kumar", none, none, none, none⟩]
      = ([⟨"Vaibhav Kumar", none, none, none, none⟩], []) :=
  seed_database_spec.2.1 [⟨"Vaibhav Kumar", none, none, none, none⟩] (by decide)

end Portfolio
